import Mathlib

/-!
Shallow embedding of the taxi-emissions pipeline (src/load.py, src/clean.py,
src/transform.py) and proofs about its cleaning, chunked transformation and
verification logic.

Modelling conventions:
* A SQL table is a `List Row`; nullable SQL columns are `Option` fields.
* Timestamps are non-negative whole seconds since 1970-01-01 00:00:00 UTC
  (the data's domain: the pipeline only handles years 2015-2024).
* SQL `DOUBLE` / `DECIMAL` arithmetic is modelled over `ℚ`; DuckDB returns
  NULL on division by zero, modelled by an `Option ℚ` result.
* SQL three-valued logic: a WHERE clause keeps a row only when the predicate
  is TRUE; a comparison with NULL is never TRUE, so every atomic comparison
  is modelled as a `Bool` that is `false` when an operand is NULL.
* Python f-string formatting of `None` with a numeric format spec raises
  `TypeError`; fallible Python code is modelled with `Except String`.
-/


/-! ### SQL three-valued comparison helpers -/

/-- SQL `x > k` on a nullable integer column: TRUE only for non-null `x` with `x > k`. -/
def sqlGtZ (a : Option ℤ) (b : ℤ) : Bool :=
  match a with
  | none => false
  | some x => decide (b < x)

/-- SQL `x <= k` on a nullable integer column. -/
def sqlLeZ (a : Option ℤ) (b : ℤ) : Bool :=
  match a with
  | none => false
  | some x => decide (x ≤ b)

/-- SQL `x >= k` on a nullable integer column. -/
def sqlGeZ (a : Option ℤ) (b : ℤ) : Bool :=
  match a with
  | none => false
  | some x => decide (b ≤ x)

/-- SQL `x = k` on a nullable integer column (NULL = k is not TRUE). -/
def sqlEqZ (a : Option ℤ) (b : ℤ) : Bool :=
  match a with
  | none => false
  | some x => decide (x = b)

/-- SQL `x > k` on a nullable numeric column. -/
def sqlGtQ (a : Option ℚ) (b : ℚ) : Bool :=
  match a with
  | none => false
  | some x => decide (b < x)

/-- SQL `x <= k` on a nullable numeric column. -/
def sqlLeQ (a : Option ℚ) (b : ℚ) : Bool :=
  match a with
  | none => false
  | some x => decide (x ≤ b)

/-- SQL `x = k` on a nullable numeric column. -/
def sqlEqQ (a : Option ℚ) (b : ℚ) : Bool :=
  match a with
  | none => false
  | some x => decide (x = b)

/-- DuckDB division: dividing by zero yields NULL rather than a fault. -/
def sqlDiv (a b : ℚ) : Option ℚ :=
  if b = 0 then none else some (a / b)

/-! ### Calendar model: the Gregorian calendar semantics behind DuckDB's
`EXTRACT(YEAR / HOUR / DOW / WEEK / MONTH FROM timestamp)`.  DuckDB's `dow`
is 0 = Sunday .. 6 = Saturday and `week` is the ISO-8601 week number. -/

/-- Gregorian leap-year rule. -/
def isLeap (y : ℕ) : Bool :=
  y % 4 == 0 && (y % 100 != 0 || y % 400 == 0)

/-- Number of days in a Gregorian year. -/
def daysInYear (y : ℕ) : ℕ :=
  if isLeap y then 366 else 365

/-- Fuel-driven conversion of a day count (days since Jan 1 of year `y`) to
a pair (year, zero-based day of year); the fuel only bounds the recursion
and is chosen large enough to never run out. -/
def yearDoyF : ℕ → ℕ → ℕ → ℕ × ℕ
  | 0, y, d => (y, d)
  | fuel + 1, y, d =>
    if d < daysInYear y then (y, d) else yearDoyF fuel (y + 1) (d - daysInYear y)

/-- Year and zero-based day-of-year of the day `d` days after Jan 1 of year `y`. -/
def yearDoy (y d : ℕ) : ℕ × ℕ :=
  yearDoyF (d + 1) y d

/-- Lengths of the twelve months of a (leap or common) Gregorian year. -/
def monthLens (leap : Bool) : List ℕ :=
  [31, if leap then 29 else 28, 31, 30, 31, 30, 31, 31, 30, 31, 30, 31]

/-- Walk the month lengths: from a list of month lengths, a first month
number and a zero-based day offset, return (month number, day of month). -/
def monthFrom : List ℕ → ℕ → ℕ → ℕ × ℕ
  | [], m, d => (m, d + 1)
  | L :: rest, m, d => if d < L then (m, d + 1) else monthFrom rest (m + 1) (d - L)

/-- Day number (days since 1970-01-01) of a timestamp. -/
def epochDay (t : ℕ) : ℕ := t / 86400

/-- EXTRACT(YEAR FROM ts). -/
def extractYear (t : ℕ) : ℕ := (yearDoy 1970 (epochDay t)).1

/-- Zero-based day-of-year of a timestamp. -/
def doy0 (t : ℕ) : ℕ := (yearDoy 1970 (epochDay t)).2

/-- EXTRACT(MONTH FROM ts). -/
def extractMonth (t : ℕ) : ℕ :=
  (monthFrom (monthLens (isLeap (extractYear t))) 1 (doy0 t)).1

/-- EXTRACT(HOUR FROM ts). -/
def extractHour (t : ℕ) : ℕ := t % 86400 / 3600

/-- EXTRACT(DOW FROM ts): 0 = Sunday .. 6 = Saturday (1970-01-01 was a Thursday). -/
def extractDow (t : ℕ) : ℕ := (epochDay t + 4) % 7

/-- ISO day of week of a day number: 1 = Monday .. 7 = Sunday. -/
def isoDowOfDay (d : ℕ) : ℕ := (d + 3) % 7 + 1

/-- Day number of Jan 1 of the year containing the timestamp. -/
def jan1Day (t : ℕ) : ℕ := epochDay t - doy0 t

/-- Number of ISO weeks (52 or 53) in year `y` whose Jan 1 falls on day
number `jan1`: 53 exactly when Jan 1 is a Thursday, or the year is leap and
Jan 1 is a Wednesday. -/
def weeksInYear (jan1 : ℕ) (y : ℕ) : ℕ :=
  if isoDowOfDay jan1 == 4 || (isLeap y && isoDowOfDay jan1 == 3) then 53 else 52

/-- Raw ISO week index of a timestamp before the year-boundary fixups:
`(10 + dayOfYear - isoDayOfWeek) / 7` with a one-based day of year. -/
def rawWeek (t : ℕ) : ℕ :=
  (10 + (doy0 t + 1) - isoDowOfDay (epochDay t)) / 7

/-- EXTRACT(WEEK FROM ts): the ISO-8601 week number, in [1, 53]; a raw index
of 0 belongs to the last week of the previous year, and one past the year's
week count belongs to week 1 of the next year. -/
def extractWeek (t : ℕ) : ℕ :=
  if rawWeek t = 0 then
    weeksInYear (jan1Day t - daysInYear (extractYear t - 1)) (extractYear t - 1)
  else if weeksInYear (jan1Day t) (extractYear t) < rawWeek t then 1
  else rawWeek t

/-! ### Data model -/

/-- One row of `yellow_trips` / `green_trips`.  The pickup/dropoff fields
stand for `tpep_*_datetime` (yellow) or `lpep_*_datetime` (green); both
tables share this shape.  `fare_amount` stands in for the remaining source
columns, which only matter for exact-duplicate comparison.  The last six
fields are the derived columns added by src/transform.py; raw ingested rows
(src/load.py) carry `none` there, standing for the columns being absent. -/
structure Row where
  passenger_count : Option ℤ
  trip_distance : Option ℚ
  pickup : Option ℕ
  dropoff : Option ℕ
  fare_amount : Option ℚ
  trip_co2_kgs : Option ℚ := none
  avg_mph : Option ℚ := none
  hour_of_day : Option ℤ := none
  day_of_week : Option ℤ := none
  week_of_year : Option ℤ := none
  month_of_year : Option ℤ := none
deriving DecidableEq, Repr

/-- One row of the `vehicle_emissions` lookup table (src/load.py loads it
verbatim from `data/vehicle_emissions.csv`). -/
structure RateEntry where
  vehicle_type : String
  co2_grams_per_mile : ℚ
deriving DecidableEq, Repr

/-- The database state the pipeline mutates. -/
structure DBState where
  yellow_trips : List Row
  green_trips : List Row
  vehicle_emissions : List RateEntry
deriving DecidableEq, Repr

/-- SQL `EXTRACT(EPOCH FROM (dropoff - pickup))` in seconds; NULL when
either timestamp is NULL. -/
def epochDiff (pick drop : Option ℕ) : Option ℤ :=
  match pick, drop with
  | some p, some d => some ((d : ℤ) - (p : ℤ))
  | _, _ => none

/-- SQL `EXTRACT(YEAR FROM pickup)` as a nullable value. -/
def pickupYear (pick : Option ℕ) : Option ℤ :=
  pick.map fun t => (extractYear t : ℤ)

/-! ### QualityFilterEngine (src/clean.py) -/

/-- The WHERE clause of the cleaning query in `clean_yellow_trips` /
`clean_green_trips` (src/clean.py lines 40-52 and 90-102), atom for atom,
under SQL three-valued logic: a row is kept only when every conjunct is
TRUE. -/
def cleanPred (r : Row) : Bool :=
  sqlGtZ r.passenger_count 0 &&
  sqlGtQ r.trip_distance 0 &&
  sqlLeQ r.trip_distance 100 &&
  sqlLeZ (epochDiff r.pickup r.dropoff) 86400 &&
  sqlGtZ (epochDiff r.pickup r.dropoff) 0 &&
  sqlGeZ (pickupYear r.pickup) 2015 &&
  sqlLeZ (pickupYear r.pickup) 2024 &&
  r.pickup.isSome &&
  r.dropoff.isSome

/-- The cleaning query body: `SELECT DISTINCT * FROM t WHERE cleanPred`. -/
def cleanTable (t : List Row) : List Row :=
  (t.filter cleanPred).dedup

/-- `clean_yellow_trips` (src/clean.py): rebuilds `yellow_trips` as the
filtered, deduplicated table (the temp-table/drop/rename sequence is
modelled separately as `runCleanSteps` for the atomicity claim). -/
def clean_yellow_trips (st : DBState) : DBState :=
  { st with yellow_trips := cleanTable st.yellow_trips }

/-- `clean_green_trips` (src/clean.py). -/
def clean_green_trips (st : DBState) : DBState :=
  { st with green_trips := cleanTable st.green_trips }

/-- The seven §4.1 predicates as the specification words them, in direct
propositional form, to be compared with the source's `cleanPred`. -/
def SpecCleanPreds (r : Row) : Prop :=
  (∃ pc, r.passenger_count = some pc ∧ 0 < pc) ∧
  (∃ dist, r.trip_distance = some dist ∧ 0 < dist ∧ dist ≤ 100) ∧
  (∃ p d, r.pickup = some p ∧ r.dropoff = some d ∧
    0 < (d : ℤ) - (p : ℤ) ∧ (d : ℤ) - (p : ℤ) ≤ 86400 ∧
    (2015 : ℤ) ≤ (extractYear p : ℤ) ∧ ((extractYear p : ℤ)) ≤ 2024)

/-! ### ChunkPlanner (the batching loop of src/transform.py) -/

/-- Number of batches: `(total_rows + batch_size - 1) // batch_size`
(src/transform.py line 44). -/
def numBatches (N C : ℕ) : ℕ := (N + C - 1) / C

/-- Membership of row position `p` (in the stable rowid ordering of a table
with `N` rows) in the window of batch `i`: the SQL
`LIMIT C OFFSET i*C` over `ORDER BY rowid` selects exactly the positions
in `[i*C, i*C + C)` that exist. -/
def inChunk (N C i p : ℕ) : Prop :=
  i * C ≤ p ∧ p < i * C + C ∧ p < N

instance (N C i p : ℕ) : Decidable (inChunk N C i p) := by
  unfold inChunk; infer_instance

/-! ### DerivedFeatureComputer (src/transform.py) -/

/-- The join source of the batched UPDATE:
`FROM vehicle_emissions ve WHERE ve.vehicle_type = '<key>'`.  With no
matching entry the UPDATE joins an empty table and changes no row; with at
least one match the matching entry's rate is used. -/
def lookupRate (ve : List RateEntry) (key : String) : Option ℚ :=
  match ve.filter (fun e => e.vehicle_type == key) with
  | [] => none
  | e :: _ => some e.co2_grams_per_mile

/-- The SET clause of the batched UPDATE (src/transform.py lines 55-71 and
120-136): all six derived columns are written in one step from the source
columns and the joined rate; NULL operands propagate, and the
division-by-zero case of `avg_mph` yields NULL. -/
def updateTrip (rate : ℚ) (r : Row) : Row :=
  { r with
    trip_co2_kgs := r.trip_distance.map (fun d => d * rate / 1000),
    avg_mph :=
      match r.trip_distance, epochDiff r.pickup r.dropoff with
      | some d, some e => sqlDiv d ((e : ℚ) / 3600)
      | _, _ => none,
    hour_of_day := r.pickup.map (fun t => (extractHour t : ℤ)),
    day_of_week := r.pickup.map (fun t => (extractDow t : ℤ)),
    week_of_year := r.pickup.map (fun t => (extractWeek t : ℤ)),
    month_of_year := r.pickup.map (fun t => (extractMonth t : ℤ)) }

/-- Apply `f`, which may depend on the row position, to every row of a
table, positions starting at `p0`. -/
def updFrom {α : Type} (f : ℕ → α → α) : ℕ → List α → List α
  | _, [] => []
  | p, r :: rs => f p r :: updFrom f (p + 1) rs

/-- One batched UPDATE: rows whose position lies in the window of batch `i`
are rewritten, all others are untouched. -/
def applyBatch (upd : Row → Row) (C i : ℕ) (rows : List Row) : List Row :=
  updFrom (fun p r => if i * C ≤ p ∧ p < i * C + C then upd r else r) 0 rows

/-- The batch loop `for i in range(batches)` of src/transform.py. -/
def runBatches (upd : Row → Row) (C b : ℕ) (rows : List Row) : List Row :=
  (List.range b).foldl (fun acc i => applyBatch upd C i acc) rows

/-- The hard-coded chunk size of src/transform.py (lines 43 and 110). -/
def batchSize : ℕ := 1000000

/-- The whole per-table transformation: count rows, derive the batch count,
run the batched updates (a no-op when the rate key has no match). -/
def transformTable (ve : List RateEntry) (key : String) (C : ℕ)
    (rows : List Row) : List Row :=
  match lookupRate ve key with
  | none => rows
  | some rate => runBatches (updateTrip rate) C (numBatches rows.length C) rows

/-- `transform_yellow_trips` (src/transform.py lines 12-78). -/
def transform_yellow_trips (st : DBState) : DBState :=
  { st with yellow_trips :=
      transformTable st.vehicle_emissions "yellow_taxi" batchSize st.yellow_trips }

/-- `transform_green_trips` (src/transform.py lines 80-143). -/
def transform_green_trips (st : DBState) : DBState :=
  { st with green_trips :=
      transformTable st.vehicle_emissions "green_taxi" batchSize st.green_trips }

/-! ### Derived-feature properties (C6, C7) -/

/-- None of the six derived columns carries a value (the state of every row
before the transformation phase: the columns are absent or NULL). -/
def DerivedNone (r : Row) : Prop :=
  r.trip_co2_kgs = none ∧ r.avg_mph = none ∧ r.hour_of_day = none ∧
  r.day_of_week = none ∧ r.week_of_year = none ∧ r.month_of_year = none

/-- All six derived values are present and within the documented ranges:
hour in [0, 23], day of week in [0, 6] (0 = Sunday), week in [1, 53],
month in [1, 12], co2 and average speed defined and non-negative. -/
def DerivedInRange (r : Row) : Prop :=
  (∃ c, r.trip_co2_kgs = some c ∧ 0 ≤ c) ∧
  (∃ v, r.avg_mph = some v ∧ 0 ≤ v) ∧
  (∃ h, r.hour_of_day = some h ∧ 0 ≤ h ∧ h ≤ 23) ∧
  (∃ d, r.day_of_week = some d ∧ 0 ≤ d ∧ d ≤ 6) ∧
  (∃ w, r.week_of_year = some w ∧ 1 ≤ w ∧ w ≤ 53) ∧
  (∃ m, r.month_of_year = some m ∧ 1 ≤ m ∧ m ≤ 12)

/-- A cleaned yellow row used by concrete witnesses: a 5-mile, 10-minute
trip picked up 2023-11-14 22:13:20 UTC. -/
def wRowY : Row :=
  { passenger_count := some 1, trip_distance := some 5,
    pickup := some 1700000000, dropoff := some 1700000600,
    fare_amount := some 20 }

/-- A cleaned green row used by concrete witnesses. -/
def wRowG : Row :=
  { passenger_count := some 2, trip_distance := some 3,
    pickup := some 1700100000, dropoff := some 1700101800,
    fare_amount := some 15 }

/-- A concrete post-cleaning state with both rate keys present. -/
def wState6 : DBState :=
  { yellow_trips := [wRowY], green_trips := [wRowG],
    vehicle_emissions :=
      [⟨"yellow_taxi", 400⟩, ⟨"green_taxi", 300⟩] }

/-- A concrete zero-duration row (pickup equals dropoff). -/
def wRow8 : Row :=
  { passenger_count := some 1, trip_distance := some 5,
    pickup := some 1700000000, dropoff := some 1700000000,
    fare_amount := some 20 }

/-! ### The replace sequence of the QualityFilterEngine (C3).
src/clean.py lines 40-56: first `CREATE OR REPLACE TABLE <t>_temp AS
SELECT ...`, then `DROP TABLE <t>`, then `ALTER TABLE <t>_temp RENAME TO
<t>`.  An interruption after `k` statements leaves the store
`runCleanSteps k`. -/

/-- The pair of tables the replace sequence touches: the original table
(`yellow_trips` / `green_trips`) and its `_temp` sibling; `none` means the
table does not exist. -/
structure TableStore where
  orig : Option (List Row)
  tempTbl : Option (List Row)
deriving DecidableEq, Repr

/-- The three statements of the replace sequence. -/
inductive CleanStep
  | createTemp
  | dropOrig
  | renameTemp
deriving DecidableEq, Repr

/-- Semantics of one statement: `CREATE OR REPLACE ... AS SELECT DISTINCT *
FROM orig WHERE ...` materializes the cleaned table under the temp name,
`DROP TABLE` removes the original, `ALTER ... RENAME` moves the temp table
to the original name. -/
def stepSem (s : TableStore) : CleanStep → TableStore
  | CleanStep.createTemp => { s with tempTbl := s.orig.map cleanTable }
  | CleanStep.dropOrig => { s with orig := none }
  | CleanStep.renameTemp => { orig := s.tempTbl, tempTbl := none }

/-- The statement order of src/clean.py lines 40-56. -/
def cleanSteps : List CleanStep :=
  [CleanStep.createTemp, CleanStep.dropOrig, CleanStep.renameTemp]

/-- Execute the first `k` statements of the replace sequence (an error at
statement `k+1` leaves this state behind). -/
def runCleanSteps (k : ℕ) (s : TableStore) : TableStore :=
  (cleanSteps.take k).foldl stepSem s

/-- A store whose original table exists (here: empty) and temp does not. -/
def cleanStore0 : TableStore := { orig := some [], tempTbl := none }

/-! ### Verifier (src/clean.py verify_cleaning, src/transform.py
verify_transformations) -/

/-- SQL `x < k` on a nullable integer column. -/
def sqlLtZ (a : Option ℤ) (b : ℤ) : Bool :=
  match a with
  | none => false
  | some x => decide (x < b)

/-- SQL `SELECT COUNT(*) FROM t WHERE p`. -/
def countRows (t : List Row) (p : Row → Bool) : ℕ := (t.filter p).length

/-- The duplicate check of verify_cleaning: total row count minus distinct
row count. -/
def dupCount (t : List Row) : ℕ := t.length - t.dedup.length

/-- The `Trips > 24 hours` check predicate: `EXTRACT(EPOCH FROM (dropoff -
pickup)) > 86400` (never TRUE on NULL timestamps). -/
def chkDurOver (r : Row) : Bool := sqlGtZ (epochDiff r.pickup r.dropoff) 86400

/-- The `Trips outside 2015-2024` check predicate:
`EXTRACT(YEAR FROM pickup) < 2015 OR EXTRACT(YEAR FROM pickup) > 2024`
(never TRUE on a NULL pickup). -/
def chkYearOutside (r : Row) : Bool :=
  sqlLtZ (pickupYear r.pickup) 2015 || sqlGtZ (pickupYear r.pickup) 2024

/-- The six violation counts verify_cleaning computes per table
(src/clean.py lines 135-154 and 165-182), in source order: passengers = 0,
distance = 0, distance > 100, duration > 86400 s, duplicates, pickup year
outside [2015, 2024]. -/
def violationCounts (t : List Row) : List ℕ :=
  [countRows t (fun r => sqlEqZ r.passenger_count 0),
   countRows t (fun r => sqlEqQ r.trip_distance 0),
   countRows t (fun r => sqlGtQ r.trip_distance 100),
   countRows t chkDurOver,
   dupCount t,
   countRows t chkYearOutside]

/-- `verify_cleaning` (src/clean.py lines 113-201): sums the twelve counts
(six per table) and reports clean exactly when the sum is zero. -/
def verify_cleaning (st : DBState) : Bool :=
  ((violationCounts st.yellow_trips).sum + (violationCounts st.green_trips).sum) == 0

/-- Total NULL count over the six derived columns of a table
(src/transform.py lines 154-159 and 198-203). -/
def nullCounts (t : List Row) : ℕ :=
  countRows t (fun r => r.trip_co2_kgs.isNone) +
  countRows t (fun r => r.avg_mph.isNone) +
  countRows t (fun r => r.hour_of_day.isNone) +
  countRows t (fun r => r.day_of_week.isNone) +
  countRows t (fun r => r.week_of_year.isNone) +
  countRows t (fun r => r.month_of_year.isNone)

/-- SQL `AVG(column)`: NULL values are skipped; NULL when no value remains
(in particular on an empty table). -/
def avgQ (t : List Row) (f : Row → Option ℚ) : Option ℚ :=
  if (t.filterMap f).length = 0 then none
  else some ((t.filterMap f).sum / ((t.filterMap f).length : ℚ))

/-- Minimum of a list of integers, `none` when empty. -/
def minList : List ℤ → Option ℤ
  | [] => none
  | x :: xs =>
    match minList xs with
    | none => some x
    | some m => some (min x m)

/-- Maximum of a list of integers, `none` when empty. -/
def maxList : List ℤ → Option ℤ
  | [] => none
  | x :: xs =>
    match maxList xs with
    | none => some x
    | some m => some (max x m)

/-- SQL `MIN(column)` over a nullable integer column. -/
def minZ (t : List Row) (f : Row → Option ℤ) : Option ℤ := minList (t.filterMap f)

/-- SQL `MAX(column)` over a nullable integer column. -/
def maxZ (t : List Row) (f : Row → Option ℤ) : Option ℤ := maxList (t.filterMap f)

/-- The Python error raised by `f-string` formatting `None` with a numeric
format spec, as in `print(f"... {stats[0]:.3f} ...")`. -/
def fmtErr : String := "TypeError: unsupported format string passed to NoneType.__format__"

/-- The Python error raised by comparing `None` with an int. -/
def cmpErr : String := "TypeError: comparison not supported between NoneType and int"

/-- `verify_transformations` (src/transform.py lines 145-248).  The four
aggregate statistics `AVG(trip_co2_kgs)` / `AVG(avg_mph)` per table are
formatted with numeric format specs before the final condition is
evaluated, and each raises the same TypeError when NULL, so the run fails
exactly when any of the four is NULL; otherwise the result is
`total_nulls == 0 and min_hour >= 0 and max_hour <= 23` for both tables
(Python's `and` evaluates the hour comparisons only when the NULL count is
zero, in which case both tables are non-empty with non-null hours, so the
MIN/MAX aggregates cannot be None there). -/
def verify_transformations (st : DBState) : Except String Bool :=
  match avgQ st.yellow_trips (fun r => r.trip_co2_kgs),
        avgQ st.yellow_trips (fun r => r.avg_mph),
        avgQ st.green_trips (fun r => r.trip_co2_kgs),
        avgQ st.green_trips (fun r => r.avg_mph) with
  | some _, some _, some _, some _ =>
    if nullCounts st.yellow_trips + nullCounts st.green_trips = 0 then
      match minZ st.yellow_trips (fun r => r.hour_of_day),
            maxZ st.yellow_trips (fun r => r.hour_of_day),
            minZ st.green_trips (fun r => r.hour_of_day),
            maxZ st.green_trips (fun r => r.hour_of_day) with
      | some mnY, some mxY, some mnG, some mxG =>
        Except.ok (decide (0 ≤ mnY) && decide (mxY ≤ 23) &&
          decide (0 ≤ mnG) && decide (mxG ≤ 23))
      | _, _, _, _ => Except.error cmpErr
    else Except.ok false
  | _, _, _, _ => Except.error fmtErr

/-- The four columns the cleaning predicates look at, all NULL. -/
def AllNullCore (r : Row) : Prop :=
  r.passenger_count = none ∧ r.trip_distance = none ∧
  r.pickup = none ∧ r.dropoff = none

instance (r : Row) : Decidable (AllNullCore r) := by
  unfold AllNullCore; infer_instance

/-- A row that violates cleaning predicates only through NULLs. -/
def wRowNull : Row :=
  { passenger_count := none, trip_distance := none,
    pickup := none, dropoff := none, fare_amount := some 1 }

/-- A state whose yellow table has one all-NULL row and whose green table
is empty. -/
def stNull : DBState :=
  { yellow_trips := [wRowNull], green_trips := [], vehicle_emissions := [] }

/-- A state with both tables empty. -/
def stEmpty : DBState :=
  { yellow_trips := [], green_trips := [], vehicle_emissions := [] }

/-- A fully transformed yellow row whose co2 value is negative (a
derived-feature range violation the Verifier never checks). -/
def wRowC4 : Row :=
  { passenger_count := some 1, trip_distance := some 5,
    pickup := some 1700000000, dropoff := some 1700000600,
    fare_amount := some 10, trip_co2_kgs := some (-5), avg_mph := some 30,
    hour_of_day := some 10, day_of_week := some 2, week_of_year := some 46,
    month_of_year := some 11 }

/-- A fully transformed, in-range green row. -/
def wRowC4g : Row :=
  { passenger_count := some 1, trip_distance := some 3,
    pickup := some 1700100000, dropoff := some 1700101800,
    fare_amount := some 7, trip_co2_kgs := some 3, avg_mph := some 9,
    hour_of_day := some 5, day_of_week := some 3, week_of_year := some 46,
    month_of_year := some 11 }

/-- A state whose yellow table carries a negative co2 value. -/
def stC4 : DBState :=
  { yellow_trips := [wRowC4], green_trips := [wRowC4g], vehicle_emissions := [] }

/-- A state whose RatePolicy table is missing the `yellow_taxi` key while
the yellow table holds an (otherwise clean) untransformed row. -/
def stC5 : DBState :=
  { yellow_trips := [wRowY], green_trips := [],
    vehicle_emissions := [⟨"green_taxi", 300⟩] }



/-- The source WHERE clause holds exactly when the spec's predicate list
(1-6, nulls excluded) holds. -/
theorem cleanPred_iff (r : Row) : cleanPred r = true ↔ SpecCleanPreds r := by
  unfold cleanPred SpecCleanPreds
  unfold sqlGtZ sqlGtQ sqlLeQ sqlLeZ sqlGeZ epochDiff pickupYear
  rcases hpc : r.passenger_count with _ | pc <;>
    rcases hd : r.trip_distance with _ | dist <;>
      rcases hp : r.pickup with _ | p <;>
        rcases hq : r.dropoff with _ | q <;>
          (simp; all_goals tauto)

theorem mem_cleanTable (t : List Row) (r : Row) :
    r ∈ cleanTable t ↔ r ∈ t ∧ SpecCleanPreds r := by
  unfold cleanTable
  rw [List.mem_dedup, List.mem_filter, cleanPred_iff]

theorem cleanTable_nodup (t : List Row) : (cleanTable t).Nodup :=
  List.nodup_dedup _

/-- C1: for each source table and category, cleaning produces exactly the
distinct rows of the source satisfying all seven predicates (positive
passenger count, positive distance at most 100, positive duration at most
86400 seconds, non-null timestamps, pickup year in [2015, 2024], exact
duplicates collapsed); in particular no retained row violates any
predicate. -/
theorem claim1_clean_exact (st : DBState) :
    (∀ r, r ∈ (clean_yellow_trips st).yellow_trips ↔
      r ∈ st.yellow_trips ∧ SpecCleanPreds r) ∧
    (clean_yellow_trips st).yellow_trips.Nodup ∧
    (∀ r, r ∈ (clean_green_trips st).green_trips ↔
      r ∈ st.green_trips ∧ SpecCleanPreds r) ∧
    (clean_green_trips st).green_trips.Nodup := by
  refine ⟨fun r => ?_, ?_, fun r => ?_, ?_⟩
  · exact mem_cleanTable st.yellow_trips r
  · exact cleanTable_nodup st.yellow_trips
  · exact mem_cleanTable st.green_trips r
  · exact cleanTable_nodup st.green_trips

theorem le_numBatches_mul (N C : ℕ) (hC : 0 < C) : N ≤ numBatches N C * C := by
  unfold numBatches
  have h := Nat.lt_div_mul_add (a := N + C - 1) hC
  omega

/-- C2: the batch windows of the chunked update partition the row positions:
for chunk size `C > 0` a position is a valid row position (below `N`) exactly
when it lies in some batch `i < numBatches N C`, and no position lies in two
distinct batch windows. -/
theorem claim2_chunks_cover (N C p : ℕ) (hC : 0 < C) :
    (p < N ↔ ∃ i, i < numBatches N C ∧ inChunk N C i p) ∧
    (∀ i j, inChunk N C i p → inChunk N C j p → i = j) := by
  constructor
  · constructor
    · intro hp
      refine ⟨p / C, ?_, ?_, ?_, hp⟩
      · have h1 := le_numBatches_mul N C hC
        by_contra hlt
        push_neg at hlt
        have h4 : numBatches N C * C ≤ p / C * C :=
          Nat.mul_le_mul_right C hlt
        have h5 : p / C * C ≤ p := Nat.div_mul_le_self p C
        omega
      · exact Nat.div_mul_le_self p C
      · exact Nat.lt_div_mul_add hC
    · rintro ⟨i, _, _, _, hp⟩
      exact hp
  · rintro i j ⟨hi1, hi2, -⟩ ⟨hj1, hj2, -⟩
    rcases Nat.lt_trichotomy i j with h | h | h
    · have h2 : (i + 1) * C ≤ j * C := Nat.mul_le_mul_right C h
      have h3 : (i + 1) * C = i * C + C := by rw [Nat.add_mul, Nat.one_mul]
      omega
    · exact h
    · have h2 : (j + 1) * C ≤ i * C := Nat.mul_le_mul_right C h
      have h3 : (j + 1) * C = j * C + C := by rw [Nat.add_mul, Nat.one_mul]
      omega

/-- Closed instance of C2 at a concrete table size and chunk size. -/
theorem claim2_chunks_cover_witness :
    ((3 < 5 ↔ ∃ i, i < numBatches 5 2 ∧ inChunk 5 2 i 3) ∧
      (∀ i j, inChunk 5 2 i 3 → inChunk 5 2 j 3 → i = j)) :=
  claim2_chunks_cover 5 2 3 (by decide)

theorem updFrom_getElem? {α : Type} (f : ℕ → α → α) :
    ∀ (rows : List α) (p0 n : ℕ),
      (updFrom f p0 rows)[n]? = (rows[n]?).map (f (p0 + n))
  | [], p0, n => by simp [updFrom]
  | r :: rs, p0, 0 => by simp [updFrom]
  | r :: rs, p0, n + 1 => by
    have h := updFrom_getElem? f rs (p0 + 1) n
    have harith : p0 + 1 + n = p0 + (n + 1) := by omega
    simp only [updFrom, List.getElem?_cons_succ, h, harith]

theorem applyBatch_getElem? (upd : Row → Row) (C i : ℕ) (rows : List Row)
    (n : ℕ) :
    (applyBatch upd C i rows)[n]? =
      (rows[n]?).map (fun r => if i * C ≤ n ∧ n < i * C + C then upd r else r) := by
  unfold applyBatch
  rw [updFrom_getElem?]
  simp

theorem runBatches_getElem? (upd : Row → Row) (C : ℕ) :
    ∀ (b : ℕ) (rows : List Row) (n : ℕ),
      (runBatches upd C b rows)[n]? =
        (rows[n]?).map (fun r => if n < b * C then upd r else r)
  | 0, rows, n => by
    unfold runBatches
    simp only [List.range_zero, List.foldl_nil, Nat.zero_mul]
    cases rows[n]? <;> simp
  | b + 1, rows, n => by
    have hstep : runBatches upd C (b + 1) rows =
        applyBatch upd C b (runBatches upd C b rows) := by
      unfold runBatches
      rw [List.range_succ, List.foldl_append, List.foldl_cons, List.foldl_nil]
    rw [hstep, applyBatch_getElem?, runBatches_getElem? upd C b rows n,
      Option.map_map]
    cases rows[n]? with
    | none => simp
    | some r =>
      simp only [Option.map_some', Function.comp_apply, Nat.succ_mul]
      split_ifs <;> first | rfl | omega

/-- When the rate key matches, the chunked transformation updates every row
exactly once: it equals a single whole-table map of the SET clause. -/
theorem transformTable_eq_map (ve : List RateEntry) (key : String) (C : ℕ)
    (rows : List Row) (rate : ℚ) (hr : lookupRate ve key = some rate)
    (hC : 0 < C) :
    transformTable ve key C rows = rows.map (updateTrip rate) := by
  unfold transformTable
  rw [hr]
  apply List.ext_getElem?
  intro n
  rw [runBatches_getElem?, List.getElem?_map]
  rcases Nat.lt_or_ge n rows.length with hn | hn
  · have h1 := le_numBatches_mul rows.length C hC
    have : n < numBatches rows.length C * C := by omega
    simp [this]
  · rw [List.getElem?_eq_none hn]
    simp

/-! ### Range facts about the calendar extractors -/

theorem daysInYear_ge (y : ℕ) : 365 ≤ daysInYear y := by
  unfold daysInYear
  split <;> omega

theorem yearDoyF_snd_lt :
    ∀ (fuel y d : ℕ), d < 365 * fuel →
      (yearDoyF fuel y d).2 < daysInYear (yearDoyF fuel y d).1
  | 0, y, d, h => by omega
  | fuel + 1, y, d, h => by
    unfold yearDoyF
    split
    · simpa
    · have h1 := daysInYear_ge y
      exact yearDoyF_snd_lt fuel (y + 1) (d - daysInYear y) (by omega)

theorem yearDoy_snd_lt (y d : ℕ) : (yearDoy y d).2 < daysInYear (yearDoy y d).1 :=
  yearDoyF_snd_lt (d + 1) y d (by omega)

theorem doy0_lt (t : ℕ) : doy0 t < daysInYear (extractYear t) :=
  yearDoy_snd_lt 1970 (epochDay t)

theorem monthFrom_bounds :
    ∀ (ls : List ℕ) (m d : ℕ), ls ≠ [] → d < ls.sum →
      m ≤ (monthFrom ls m d).1 ∧ (monthFrom ls m d).1 + 1 ≤ m + ls.length
  | [], _, _, hne, _ => absurd rfl hne
  | L :: rest, m, d, _, hd => by
    unfold monthFrom
    split
    · simp
    · rcases rest with _ | ⟨L2, rest2⟩
      · simp only [List.sum_cons, List.sum_nil] at hd
        omega
      · have h := monthFrom_bounds (L2 :: rest2) (m + 1) (d - L) (by simp)
          (by simp only [List.sum_cons] at hd ⊢; omega)
        rcases h with ⟨h1, h2⟩
        refine ⟨by omega, ?_⟩
        simp only [List.length_cons] at h2 ⊢
        omega

theorem monthLens_sum (b : Bool) : (monthLens b).sum = if b then 366 else 365 := by
  cases b <;> simp [monthLens]

theorem extractMonth_bounds (t : ℕ) :
    1 ≤ extractMonth t ∧ extractMonth t ≤ 12 := by
  unfold extractMonth
  have hlt : doy0 t < (monthLens (isLeap (extractYear t))).sum := by
    have h1 := doy0_lt t
    rw [monthLens_sum]
    unfold daysInYear at h1
    split at h1 <;> simp [*]
  have h := monthFrom_bounds (monthLens (isLeap (extractYear t))) 1 (doy0 t)
    (by cases isLeap (extractYear t) <;> simp [monthLens]) hlt
  have hlen : (monthLens (isLeap (extractYear t))).length = 12 := by
    cases isLeap (extractYear t) <;> simp [monthLens]
  omega

theorem extractHour_lt (t : ℕ) : extractHour t < 24 := by
  unfold extractHour
  have h : t % 86400 < 86400 := Nat.mod_lt t (by omega)
  omega

theorem extractDow_lt (t : ℕ) : extractDow t < 7 := by
  unfold extractDow
  exact Nat.mod_lt _ (by omega)

theorem weeksInYear_eq (jan1 y : ℕ) : weeksInYear jan1 y = 52 ∨ weeksInYear jan1 y = 53 := by
  unfold weeksInYear
  split
  · right; rfl
  · left; rfl

theorem extractWeek_bounds (t : ℕ) :
    1 ≤ extractWeek t ∧ extractWeek t ≤ 53 := by
  unfold extractWeek
  have h1 := weeksInYear_eq (jan1Day t - daysInYear (extractYear t - 1)) (extractYear t - 1)
  have h2 := weeksInYear_eq (jan1Day t) (extractYear t)
  split
  · omega
  · split <;> omega

theorem updateTrip_range (rate : ℚ) (r : Row) (hrate : 0 ≤ rate)
    (hc : cleanPred r = true) : DerivedInRange (updateTrip rate r) := by
  rcases (cleanPred_iff r).mp hc with
    ⟨-, ⟨dist, hdist, hd0, -⟩, ⟨p, q, hp, hq, hdur0, -, -, -⟩⟩
  unfold updateTrip DerivedInRange
  simp only [hdist, hp, hq, epochDiff, Option.map_some']
  have hpos : (0 : ℚ) < (((q : ℤ) - (p : ℤ) : ℤ) : ℚ) / 3600 :=
    div_pos (by exact_mod_cast hdur0) (by norm_num)
  have hdivEq : sqlDiv dist ((((q : ℤ) - (p : ℤ) : ℤ) : ℚ) / 3600) =
      some (dist / ((((q : ℤ) - (p : ℤ) : ℤ) : ℚ) / 3600)) := by
    unfold sqlDiv
    rw [if_neg (ne_of_gt hpos)]
  refine ⟨⟨dist * rate / 1000, rfl, ?_⟩,
    ⟨dist / ((((q : ℤ) - (p : ℤ) : ℤ) : ℚ) / 3600), hdivEq, (div_pos hd0 hpos).le⟩,
    ?_, ?_, ?_, ?_⟩
  · exact div_nonneg (mul_nonneg hd0.le hrate) (by norm_num)
  · exact ⟨extractHour p, rfl, by positivity, by have := extractHour_lt p; omega⟩
  · exact ⟨extractDow p, rfl, by positivity, by have := extractDow_lt p; omega⟩
  · exact ⟨extractWeek p, rfl, by have := (extractWeek_bounds p).1; omega,
      by have := (extractWeek_bounds p).2; omega⟩
  · exact ⟨extractMonth p, rfl, by have := (extractMonth_bounds p).1; omega,
      by have := (extractMonth_bounds p).2; omega⟩

/-- C6: before the transformation phase no derived column is populated
(cleaning preserves that), and after the chunked transformation completes
(both rate keys present with non-negative rates, the tables being the
output of cleaning) every retained row carries all six derived values,
within range: hour in [0, 23], day of week in [0, 6] (0 = Sunday), week in
[1, 53], month in [1, 12], co2 and speed defined and non-negative. -/
theorem claim6_derived_ranges (st : DBState) (rateY rateG : ℚ)
    (hY : lookupRate st.vehicle_emissions "yellow_taxi" = some rateY)
    (hG : lookupRate st.vehicle_emissions "green_taxi" = some rateG)
    (hrY : 0 ≤ rateY) (hrG : 0 ≤ rateG)
    (hcY : ∀ r ∈ st.yellow_trips, cleanPred r = true)
    (hcG : ∀ r ∈ st.green_trips, cleanPred r = true) :
    (∀ t : List Row, (∀ r ∈ t, DerivedNone r) → ∀ r ∈ cleanTable t, DerivedNone r) ∧
    (∀ r ∈ (transform_yellow_trips st).yellow_trips, DerivedInRange r) ∧
    (∀ r ∈ (transform_green_trips st).green_trips, DerivedInRange r) := by
  refine ⟨?_, ?_, ?_⟩
  · intro t ht r hr
    exact ht r ((mem_cleanTable t r).mp hr).1
  · intro r hr
    simp only [transform_yellow_trips] at hr
    rw [transformTable_eq_map _ _ _ _ _ hY (by decide)] at hr
    rcases List.mem_map.mp hr with ⟨r0, hr0, rfl⟩
    exact updateTrip_range rateY r0 hrY (hcY r0 hr0)
  · intro r hr
    simp only [transform_green_trips] at hr
    rw [transformTable_eq_map _ _ _ _ _ hG (by decide)] at hr
    rcases List.mem_map.mp hr with ⟨r0, hr0, rfl⟩
    exact updateTrip_range rateG r0 hrG (hcG r0 hr0)

/-- Closed instance of C6 at a concrete cleaned state. -/
theorem claim6_derived_ranges_witness :
    (∀ t : List Row, (∀ r ∈ t, DerivedNone r) → ∀ r ∈ cleanTable t, DerivedNone r) ∧
    (∀ r ∈ (transform_yellow_trips wState6).yellow_trips, DerivedInRange r) ∧
    (∀ r ∈ (transform_green_trips wState6).green_trips, DerivedInRange r) :=
  claim6_derived_ranges wState6 400 300 (by decide) (by decide)
    (by norm_num) (by norm_num) (by decide) (by decide)

theorem updateTrip_updateTrip (rate : ℚ) (r : Row) :
    updateTrip rate (updateTrip rate r) = updateTrip rate r := rfl

theorem transformTable_none (ve : List RateEntry) (key : String) (C : ℕ)
    (rows : List Row) (h : lookupRate ve key = none) :
    transformTable ve key C rows = rows := by
  unfold transformTable
  rw [h]

theorem transformTable_idem (ve : List RateEntry) (key : String) (C : ℕ)
    (rows : List Row) (hC : 0 < C) :
    transformTable ve key C (transformTable ve key C rows) =
      transformTable ve key C rows := by
  cases h : lookupRate ve key with
  | none => rw [transformTable_none ve key C rows h, transformTable_none ve key C rows h]
  | some rate =>
    rw [transformTable_eq_map ve key C rows rate h hC,
      transformTable_eq_map ve key C (rows.map (updateTrip rate)) rate h hC,
      List.map_map]
    have hcomp : updateTrip rate ∘ updateTrip rate = updateTrip rate :=
      funext fun r => updateTrip_updateTrip rate r
    rw [hcomp]

/-- C7: re-running the chunked derived-feature computation is a no-op: each
chunk update is a deterministic function of the source columns it does not
modify, so the second run recomputes every row's six derived values
identically and the state is unchanged. -/
theorem claim7_transform_idempotent (st : DBState) :
    transform_yellow_trips (transform_yellow_trips st) = transform_yellow_trips st ∧
    transform_green_trips (transform_green_trips st) = transform_green_trips st := by
  constructor
  · simp only [transform_yellow_trips]
    rw [transformTable_idem _ _ _ _ (by decide)]
  · simp only [transform_green_trips]
    rw [transformTable_idem _ _ _ _ (by decide)]

/-- C8: a zero-duration row reaching the derived-feature computation does
not raise a division fault: the SET clause runs to completion, the
average-speed division by a zero interval yields NULL (DuckDB semantics),
and the other five derived values are still computed. -/
theorem claim8_zero_duration_safe (rate : ℚ) (r : Row) (t : ℕ) (d : ℚ)
    (hp : r.pickup = some t) (hq : r.dropoff = some t)
    (hd : r.trip_distance = some d) :
    (updateTrip rate r).avg_mph = none ∧
    (updateTrip rate r).trip_co2_kgs = some (d * rate / 1000) ∧
    (updateTrip rate r).hour_of_day = some (extractHour t : ℤ) ∧
    (updateTrip rate r).day_of_week = some (extractDow t : ℤ) ∧
    (updateTrip rate r).week_of_year = some (extractWeek t : ℤ) ∧
    (updateTrip rate r).month_of_year = some (extractMonth t : ℤ) := by
  unfold updateTrip
  simp only [hp, hq, hd, epochDiff, Option.map_some']
  refine ⟨?_, trivial, trivial, trivial, trivial, trivial⟩
  show sqlDiv d ((((t : ℤ) - (t : ℤ) : ℤ) : ℚ) / 3600) = none
  unfold sqlDiv
  rw [if_pos (by norm_num)]

/-- Closed instance of C8: a concrete zero-duration row. -/
theorem claim8_zero_duration_safe_witness :
    (updateTrip 400 wRow8).avg_mph = none ∧
    (updateTrip 400 wRow8).trip_co2_kgs = some (5 * 400 / 1000) ∧
    (updateTrip 400 wRow8).hour_of_day = some (extractHour 1700000000 : ℤ) ∧
    (updateTrip 400 wRow8).day_of_week = some (extractDow 1700000000 : ℤ) ∧
    (updateTrip 400 wRow8).week_of_year = some (extractWeek 1700000000 : ℤ) ∧
    (updateTrip 400 wRow8).month_of_year = some (extractMonth 1700000000 : ℤ) :=
  claim8_zero_duration_safe 400 wRow8 1700000000 5 rfl rfl rfl

/-- C3 counterexample: the claim says the rename is the only destructive
operation and the last step, so an interruption anywhere during the replace
sequence leaves the previous table intact; but after the first two
statements (CREATE of the temp table, then DROP - the drop precedes the
rename) the original table no longer exists. -/
theorem claim3_counterexample :
    cleanStore0.orig.isSome = true ∧
    (runCleanSteps 2 cleanStore0).orig = none := by
  constructor <;> rfl

/-- C3 amended: the DROP, not the rename, is the destructive operation, and
it is the second of the three statements: an error before the DROP leaves
the original intact, but an error between DROP and RENAME leaves the
original table missing, the cleaned rows surviving only under the temp
name; only after the final rename does the cleaned table exist under the
original name. -/
theorem claim3_amended (s : TableStore) :
    (∀ k, k ≤ 1 → (runCleanSteps k s).orig = s.orig) ∧
    (runCleanSteps 2 s).orig = none ∧
    (runCleanSteps 2 s).tempTbl = s.orig.map cleanTable ∧
    (runCleanSteps 3 s).orig = s.orig.map cleanTable := by
  refine ⟨?_, rfl, rfl, rfl⟩
  intro k hk
  interval_cases k <;> rfl

/-- Closed instance of the amended C3. -/
theorem claim3_amended_witness :
    (runCleanSteps 1 cleanStore0).orig = cleanStore0.orig ∧
    (runCleanSteps 2 cleanStore0).orig = none :=
  ⟨(claim3_amended cleanStore0).1 1 (by decide),
   (claim3_amended cleanStore0).2.1⟩

theorem countRows_eq_zero {t : List Row} {p : Row → Bool}
    (h : ∀ r ∈ t, p r = false) : countRows t p = 0 := by
  unfold countRows
  rw [List.length_eq_zero, List.filter_eq_nil_iff]
  intro r hr
  simp [h r hr]

theorem violationCounts_allNull {t : List Row}
    (h : ∀ r ∈ t, AllNullCore r) (hnd : t.Nodup) :
    (violationCounts t).sum = 0 := by
  unfold violationCounts
  have c1 : countRows t (fun r => sqlEqZ r.passenger_count 0) = 0 :=
    countRows_eq_zero fun r hr => by
      rcases h r hr with ⟨hpc, -, -, -⟩
      simp [sqlEqZ, hpc]
  have c2 : countRows t (fun r => sqlEqQ r.trip_distance 0) = 0 :=
    countRows_eq_zero fun r hr => by
      rcases h r hr with ⟨-, hd, -, -⟩
      simp [sqlEqQ, hd]
  have c3 : countRows t (fun r => sqlGtQ r.trip_distance 100) = 0 :=
    countRows_eq_zero fun r hr => by
      rcases h r hr with ⟨-, hd, -, -⟩
      simp [sqlGtQ, hd]
  have c4 : countRows t chkDurOver = 0 :=
    countRows_eq_zero fun r hr => by
      rcases h r hr with ⟨-, -, hp, -⟩
      simp [chkDurOver, epochDiff, hp, sqlGtZ]
  have c5 : dupCount t = 0 := by
    unfold dupCount
    rw [List.dedup_eq_self.mpr hnd]
    omega
  have c6 : countRows t chkYearOutside = 0 :=
    countRows_eq_zero fun r hr => by
      rcases h r hr with ⟨-, -, hp, -⟩
      simp [chkYearOutside, pickupYear, hp, sqlLtZ, sqlGtZ]
  simp [c1, c2, c3, c4, c5, c6]

/-- C9 (implicit claim, the code is the authority): verify_cleaning reports
zero violations and returns true on tables whose rows carry NULL
passenger_count, NULL trip_distance and NULL timestamps, because every
check compares those columns with `=`, `>` or `<` and a SQL comparison with
NULL is never TRUE despite the check names saying 0/NULL. -/
theorem claim9_verify_cleaning_null_blind (st : DBState)
    (hy : ∀ r ∈ st.yellow_trips, AllNullCore r)
    (hg : ∀ r ∈ st.green_trips, AllNullCore r)
    (hynd : st.yellow_trips.Nodup) (hgnd : st.green_trips.Nodup) :
    verify_cleaning st = true := by
  unfold verify_cleaning
  rw [violationCounts_allNull hy hynd, violationCounts_allNull hg hgnd]
  rfl

/-- Closed instance of C9: the all-NULL single-row state passes
verify_cleaning. -/
theorem claim9_verify_cleaning_null_blind_witness :
    verify_cleaning stNull = true :=
  claim9_verify_cleaning_null_blind stNull (by decide) (by decide)
    (by decide) (by decide)

/-- C10 (implicit claim, the code is the authority): verify_transformations
requires both trip tables to be non-empty; on an empty table the aggregate
AVG results are NULL and the numeric f-string format raises a TypeError
instead of the function returning false. -/
theorem claim10_verify_transformations_empty_raises (st : DBState)
    (h : st.yellow_trips = [] ∨ st.green_trips = []) :
    ∃ e, verify_transformations st = Except.error e := by
  rcases h with h | h
  · refine ⟨fmtErr, ?_⟩
    unfold verify_transformations
    rw [h]
    rfl
  · rcases hA : avgQ st.yellow_trips (fun r => r.trip_co2_kgs) with _ | a
    · refine ⟨fmtErr, ?_⟩
      unfold verify_transformations
      rw [hA]
    · rcases hB : avgQ st.yellow_trips (fun r => r.avg_mph) with _ | b
      · refine ⟨fmtErr, ?_⟩
        unfold verify_transformations
        rw [hA, hB]
      · refine ⟨fmtErr, ?_⟩
        unfold verify_transformations
        rw [hA, hB, h]
        rfl

/-- Closed instance of C10 at the empty state. -/
theorem claim10_verify_transformations_empty_raises_witness :
    ∃ e, verify_transformations stEmpty = Except.error e :=
  claim10_verify_transformations_empty_raises stEmpty (Or.inl rfl)

/-- C4 counterexample: the claim says clean = true holds only when every
derived-feature range check holds (per the spec, co2 and speed finite and
non-negative among them); but the Verifier reports clean = true on a state
whose only yellow row has a negative co2 value. -/
theorem claim4_counterexample :
    verify_transformations stC4 = Except.ok true ∧
    ∃ r ∈ stC4.yellow_trips, ∃ c, r.trip_co2_kgs = some c ∧ c < 0 := by
  refine ⟨rfl, wRowC4, List.mem_singleton.mpr rfl, -5, rfl, by norm_num⟩

/-- C4 amended: verify_cleaning returns clean exactly when each of its
twelve violation counts is zero (the counts being the code's checks, which
are weaker than predicates 1-6: NULLs and non-positive durations are not
counted), and verify_transformations, when it returns at all, returns true
exactly when every NULL count is zero and the min/max of hour_of_day lie in
[0, 23] for both tables; no co2 or speed range check is applied. -/
theorem claim4_amended (st : DBState) :
    (verify_cleaning st = true ↔
      ∀ c ∈ violationCounts st.yellow_trips ++ violationCounts st.green_trips, c = 0) ∧
    (∀ b, verify_transformations st = Except.ok b →
      (b = true ↔ (nullCounts st.yellow_trips + nullCounts st.green_trips = 0 ∧
        (∃ mn, minZ st.yellow_trips (fun r => r.hour_of_day) = some mn ∧ 0 ≤ mn) ∧
        (∃ mx, maxZ st.yellow_trips (fun r => r.hour_of_day) = some mx ∧ mx ≤ 23) ∧
        (∃ mn, minZ st.green_trips (fun r => r.hour_of_day) = some mn ∧ 0 ≤ mn) ∧
        (∃ mx, maxZ st.green_trips (fun r => r.hour_of_day) = some mx ∧ mx ≤ 23)))) := by
  constructor
  · unfold verify_cleaning
    rw [beq_iff_eq, Nat.add_eq_zero, List.sum_eq_zero_iff, List.sum_eq_zero_iff,
      List.forall_mem_append]
  · intro b hb
    unfold verify_transformations at hb
    rcases hA : avgQ st.yellow_trips (fun r => r.trip_co2_kgs) with _ | a <;>
      rw [hA] at hb
    · exact Except.noConfusion hb
    rcases hB : avgQ st.yellow_trips (fun r => r.avg_mph) with _ | a2 <;>
      rw [hB] at hb
    · exact Except.noConfusion hb
    rcases hC : avgQ st.green_trips (fun r => r.trip_co2_kgs) with _ | a3 <;>
      rw [hC] at hb
    · exact Except.noConfusion hb
    rcases hD : avgQ st.green_trips (fun r => r.avg_mph) with _ | a4 <;>
      rw [hD] at hb
    · exact Except.noConfusion hb
    by_cases h0 : nullCounts st.yellow_trips + nullCounts st.green_trips = 0
    · rw [if_pos h0] at hb
      rcases hMn : minZ st.yellow_trips (fun r => r.hour_of_day) with _ | mnY <;>
        rw [hMn] at hb
      · exact Except.noConfusion hb
      rcases hMx : maxZ st.yellow_trips (fun r => r.hour_of_day) with _ | mxY <;>
        rw [hMx] at hb
      · exact Except.noConfusion hb
      rcases hGn : minZ st.green_trips (fun r => r.hour_of_day) with _ | mnG <;>
        rw [hGn] at hb
      · exact Except.noConfusion hb
      rcases hGx : maxZ st.green_trips (fun r => r.hour_of_day) with _ | mxG <;>
        rw [hGx] at hb
      · exact Except.noConfusion hb
      injection hb with hb'
      subst hb'
      simp only [Bool.and_eq_true, decide_eq_true_eq]
      constructor
      · rintro ⟨⟨⟨g1, g2⟩, g3⟩, g4⟩
        exact ⟨h0, ⟨mnY, rfl, g1⟩, ⟨mxY, rfl, g2⟩, ⟨mnG, rfl, g3⟩, ⟨mxG, rfl, g4⟩⟩
      · rintro ⟨-, ⟨mn, hmn2, g1⟩, ⟨mx, hmx2, g2⟩, ⟨mn2, hmn3, g3⟩, ⟨mx2, hmx3, g4⟩⟩
        injection hmn2 with e1
        injection hmx2 with e2
        injection hmn3 with e3
        injection hmx3 with e4
        subst e1; subst e2; subst e3; subst e4
        exact ⟨⟨⟨g1, g2⟩, g3⟩, g4⟩
    · rw [if_neg h0] at hb
      injection hb with hb'
      subst hb'
      simp only [Bool.false_eq_true, false_iff]
      rintro ⟨hc, -⟩
      exact h0 hc

/-- Closed instance of the amended C4 at the concrete transformed state. -/
theorem claim4_amended_witness :
    (true = true ↔ (nullCounts stC4.yellow_trips + nullCounts stC4.green_trips = 0 ∧
      (∃ mn, minZ stC4.yellow_trips (fun r => r.hour_of_day) = some mn ∧ 0 ≤ mn) ∧
      (∃ mx, maxZ stC4.yellow_trips (fun r => r.hour_of_day) = some mx ∧ mx ≤ 23) ∧
      (∃ mn, minZ stC4.green_trips (fun r => r.hour_of_day) = some mn ∧ 0 ≤ mn) ∧
      (∃ mx, maxZ stC4.green_trips (fun r => r.hour_of_day) = some mx ∧ mx ≤ 23))) :=
  (claim4_amended stC4).2 true rfl

/-- C5 counterexample: the claim says a missing RatePolicy key makes the
pipeline abort the category with a fatal error rather than proceed; but
transform_yellow_trips runs to completion as a no-op (every batched UPDATE
joins an empty rate table and matches no rows), leaving every row's derived
columns NULL; the run only fails later, when verify_transformations
formats the NULL AVG aggregates. -/
theorem claim5_counterexample :
    transform_yellow_trips stC5 = stC5 ∧
    stC5.yellow_trips ≠ [] ∧
    (∀ r ∈ (transform_yellow_trips stC5).yellow_trips, r.trip_co2_kgs = none) ∧
    verify_transformations stC5 = Except.error fmtErr := by
  refine ⟨by decide, by decide, by decide, rfl⟩

/-- C5 amended: the transform step performs no RatePolicy key check: with
the category key absent it completes normally leaving the table unchanged
(so every derived column stays NULL), and the failure only surfaces
afterwards as a TypeError when verify_transformations formats the NULL
aggregates - not as a data-integrity abort before proceeding. -/
theorem claim5_amended :
    (∀ st : DBState, lookupRate st.vehicle_emissions "yellow_taxi" = none →
      transform_yellow_trips st = st) ∧
    (∀ st : DBState, lookupRate st.vehicle_emissions "green_taxi" = none →
      transform_green_trips st = st) ∧
    (∀ st : DBState, st.yellow_trips ≠ [] →
      (∀ r ∈ st.yellow_trips, r.trip_co2_kgs = none) →
      verify_transformations st = Except.error fmtErr) := by
  refine ⟨?_, ?_, ?_⟩
  · intro st h
    unfold transform_yellow_trips
    rw [transformTable_none _ _ _ _ h]
  · intro st h
    unfold transform_green_trips
    rw [transformTable_none _ _ _ _ h]
  · intro st _ hnull
    have havg : avgQ st.yellow_trips (fun r => r.trip_co2_kgs) = none := by
      unfold avgQ
      rw [if_pos]
      rw [List.length_eq_zero, List.filterMap_eq_nil_iff]
      exact hnull
    unfold verify_transformations
    rw [havg]

/-- Closed instance of the amended C5 at the missing-key state. -/
theorem claim5_amended_witness :
    transform_yellow_trips stC5 = stC5 ∧
    verify_transformations stC5 = Except.error fmtErr :=
  ⟨claim5_amended.1 stC5 (by decide),
   claim5_amended.2.2 stC5 (by decide) (by decide)⟩
